import Mathlib

/-!
Verification of the credential lifecycle manager of graph-mcp
(`src/unnamed/part_000`: classes `EncryptionManager` and `AuthManager`,
configuration `src/config/config.js`).

The development is a shallow embedding.  Node library primitives that the
source calls but that are not code of this repository (AES-256-GCM via
`crypto.createCipheriv`, JSON serialization via `JSON.stringify` and
`JSON.parse`, hex encoding) are modelled executably, following the
contract the design document states for them: an authenticated stream
cipher with a per-write nonce and an authentication tag checked before
any plaintext is returned, and an injective canonical byte encoding of
flat JSON objects (the only payload shapes the store ever persists:
token sets and device authorizations) together with its verified
decoder.  Everything the repository itself does — blob assembly, the
tag check, the ENOENT-versus-corrupt distinction in
`loadEncryptedData`, and the whole `AuthManager` state machine — is
translated from the source.
-/

namespace GraphMcp

/-! ## Payloads: flat JSON objects

A value handed to `EncryptionManager.encrypt` is a flat JSON object
whose leaves are strings, integers or null (the shapes of the persisted
`tokens` and `deviceCode` objects).  Strings are byte lists. -/

/-- A JSON leaf value: null, an integer, or a string (UTF-8 bytes). -/
inductive JVal where
  | jnull : JVal
  | jint : Int → JVal
  | jstr : List Nat → JVal
deriving DecidableEq

/-- A flat JSON object: a list of (field name, leaf value) pairs. -/
abbrev Payload : Type := List (List Nat × JVal)

/-- Encode an integer as a natural number (sign interleaving). -/
def intCode : Int → Nat
  | Int.ofNat m => 2 * m
  | Int.negSucc m => 2 * m + 1

/-- Decode the natural-number encoding of an integer. -/
def intDecode (c : Nat) : Int :=
  if c % 2 = 0 then Int.ofNat (c / 2) else Int.negSucc (c / 2)

theorem intDecode_intCode (n : Int) : intDecode (intCode n) = n := by
  cases n with
  | ofNat m =>
    simp only [intCode, intDecode]
    rw [if_pos (by omega)]
    congr 1
    omega
  | negSucc m =>
    simp only [intCode, intDecode]
    rw [if_neg (by omega)]
    congr 1
    omega

/-- Read exactly `n` symbols from the front of a list. -/
def readN : Nat → List Nat → Option (List Nat × List Nat)
  | 0, xs => some ([], xs)
  | _ + 1, [] => none
  | n + 1, x :: xs =>
    match readN n xs with
    | some (a, r) => some (x :: a, r)
    | none => none

theorem readN_append (s r : List Nat) : readN s.length (s ++ r) = some (s, r) := by
  induction s with
  | nil => rfl
  | cons a t ih => simp [readN, ih]

/-- Serialize a JSON leaf (tag symbol followed by its data). -/
def encLeaf : JVal → List Nat
  | JVal.jnull => [0]
  | JVal.jint n => [1, intCode n]
  | JVal.jstr s => 2 :: s.length :: s

/-- Decode a JSON leaf from the front of a symbol list. -/
def decLeaf : List Nat → Option (JVal × List Nat)
  | 0 :: r => some (JVal.jnull, r)
  | 1 :: c :: r => some (JVal.jint (intDecode c), r)
  | 2 :: n :: r =>
    match readN n r with
    | some (s, r2) => some (JVal.jstr s, r2)
    | none => none
  | _ => none

theorem decLeaf_encLeaf (v : JVal) (r : List Nat) :
    decLeaf (encLeaf v ++ r) = some (v, r) := by
  cases v with
  | jnull => rfl
  | jint n => simp [encLeaf, decLeaf, intDecode_intCode]
  | jstr s => simp [encLeaf, decLeaf, readN_append]

/-- Serialize one object field: name length, name, leaf. -/
def encField (f : List Nat × JVal) : List Nat :=
  f.1.length :: (f.1 ++ encLeaf f.2)

/-- Decode one object field from the front of a symbol list. -/
def decField : List Nat → Option ((List Nat × JVal) × List Nat)
  | n :: r =>
    match readN n r with
    | some (name, r1) =>
      match decLeaf r1 with
      | some (v, r2) => some ((name, v), r2)
      | none => none
    | none => none
  | [] => none

theorem decField_encField (f : List Nat × JVal) (r : List Nat) :
    decField (encField f ++ r) = some (f, r) := by
  obtain ⟨name, v⟩ := f
  simp [encField, decField, List.append_assoc, readN_append, decLeaf_encLeaf]

/-- Serialize a list of object fields. -/
def encFields : Payload → List Nat
  | [] => []
  | f :: fs => encField f ++ encFields fs

/-- Decode exactly `k` object fields from the front of a symbol list. -/
def decFields : Nat → List Nat → Option (Payload × List Nat)
  | 0, r => some ([], r)
  | k + 1, r =>
    match decField r with
    | some (f, r1) =>
      match decFields k r1 with
      | some (fs, r2) => some (f :: fs, r2)
      | none => none
    | none => none

theorem decFields_encFields (p : Payload) (r : List Nat) :
    decFields p.length (encFields p ++ r) = some (p, r) := by
  induction p generalizing r with
  | nil => rfl
  | cons f fs ih =>
    simp [encFields, decFields, List.append_assoc, decField_encField, ih]

/-- Canonical serialization of a payload (models `JSON.stringify`
followed by UTF-8 encoding, abstracted to an injective canonical byte
form as the design document describes). -/
def serializePayload (p : Payload) : List Nat :=
  p.length :: encFields p

/-- Canonical deserialization of a payload (models `JSON.parse`); fails
on anything that is not exactly the serialization of a payload. -/
def deserializePayload (xs : List Nat) : Option Payload :=
  match xs with
  | n :: r =>
    match decFields n r with
    | some (fs, rest) => if rest = [] then some fs else none
    | none => none
  | [] => none

theorem deserializePayload_serializePayload (p : Payload) :
    deserializePayload (serializePayload p) = some p := by
  have h := decFields_encFields p []
  rw [List.append_nil] at h
  simp [serializePayload, deserializePayload, h]

/-! ## The cipher

`EncryptionManager` uses AES-256-GCM (`crypto.createCipheriv`) with a
fresh 16-byte random nonce per write and a 16-byte authentication tag.
The cipher itself is a Node library primitive; it is modelled as an
executable keystream cipher with an authentication tag over the
ciphertext — the functional shape of GCM: deterministic given key and
nonce, decryption inverts encryption under the same key and nonce, and
the tag is checked before any plaintext is returned. -/

/-- Keystream symbol `i` for a given key and nonce (models the AES-CTR
keystream inside GCM). -/
def ksByte (key iv : List Nat) (i : Nat) : Nat :=
  key.sum * 131 + iv.sum * 31 + i * 7 + 1

/-- Apply the keystream to a plaintext (encryption direction). -/
def streamEnc (ks : Nat → Nat) : Nat → List Nat → List Nat
  | _, [] => []
  | i, b :: bs => (b + ks i) :: streamEnc ks (i + 1) bs

/-- Remove the keystream from a ciphertext (decryption direction). -/
def streamDec (ks : Nat → Nat) : Nat → List Nat → List Nat
  | _, [] => []
  | i, b :: bs => (b - ks i) :: streamDec ks (i + 1) bs

theorem streamDec_streamEnc (ks : Nat → Nat) (i : Nat) (p : List Nat) :
    streamDec ks i (streamEnc ks i p) = p := by
  induction p generalizing i with
  | nil => rfl
  | cons b bs ih => simp [streamEnc, streamDec, ih]

/-- Authentication tag over key, nonce and ciphertext (models the GCM
tag: any change to ciphertext, nonce or key is meant to invalidate it). -/
def authTag (key iv ct : List Nat) : Nat :=
  key.sum * 1009 + iv.sum * 101 + ct.sum * 11 + ct.length

/-- The `encrypted, iv, tag` record returned by
`EncryptionManager.encrypt` and stored on disk (hex-in-JSON in the
source; the hex coding is a bijection on byte strings and is left
transparent here). -/
structure EncBlob where
  encrypted : List Nat
  iv : List Nat
  tag : Nat
deriving DecidableEq

/-- `EncryptionManager.encrypt`: serialize the payload, encrypt it under
the machine key with the fresh nonce `iv`, and return ciphertext, nonce
and authentication tag. -/
def encrypt (key iv : List Nat) (data : Payload) : EncBlob :=
  let ct := streamEnc (ksByte key iv) 0 (serializePayload data)
  { encrypted := ct, iv := iv, tag := authTag key iv ct }

/-- `EncryptionManager.decrypt`: verify the authentication tag, invert
the keystream, and parse the plaintext; any failure (tag mismatch or
unparsable plaintext) yields the single error the source throws. -/
def decrypt (key : List Nat) (b : EncBlob) : Except String Payload :=
  if authTag key b.iv b.encrypted = b.tag then
    match deserializePayload (streamDec (ksByte key b.iv) 0 b.encrypted) with
    | some p => Except.ok p
    | none => Except.error "Decryption failed"
  else
    Except.error "Decryption failed"

/-! ## The encrypted file on disk -/

/-- What `fs.readFile` + `JSON.parse` can see in an existing token or
device file: either a well-formed blob object, or content on which
`JSON.parse` throws. -/
inductive FileContent where
  | blobJson : EncBlob → FileContent
  | malformed : FileContent
deriving DecidableEq

/-- `EncryptionManager.loadEncryptedData`: a missing file (ENOENT) is
`none`, the normal first-run state; an existing file that fails to
parse or decrypt is the hard error the source throws, distinct from the
absent result. -/
def loadEncryptedData (key : List Nat) (file : Option FileContent) :
    Except String (Option Payload) :=
  match file with
  | none => Except.ok none
  | some FileContent.malformed => Except.error "Failed to load encrypted data"
  | some (FileContent.blobJson b) =>
    match decrypt key b with
    | Except.ok p => Except.ok (some p)
    | Except.error _ => Except.error "Failed to load encrypted data"

/-! ## AuthManager: data model

The manager layer works above the verified SecretStore layer, so the
two on-disk files are modelled through their load behaviour, exactly
the three outcomes `loadEncryptedData` can produce for a file: absent,
a blob that decrypts to the stored value, or a blob that fails to load. -/

/-- The `this.tokens` object: built on every issuance in
`pollForToken` and `refreshAccessToken`.  `refresh_token` is optional
because the token endpoint may omit it. -/
structure TokenSet where
  access_token : String
  refresh_token : Option String
  expires_in : Int
  expires_at : Int
  token_type : String
deriving DecidableEq

/-- The `this.deviceCode` object built in `authenticate`. -/
structure DeviceCode where
  device_code : String
  user_code : String
  verification_uri : String
  expires_in : Int
  interval : Int
deriving DecidableEq

/-- The on-disk token file as seen through `loadEncryptedData`:
absent, or an encrypted blob holding a `TokenSet`, or a blob that fails
to read, parse or decrypt. -/
inductive TokFile where
  | absent : TokFile
  | stored : TokenSet → TokFile
  | corrupt : TokFile
deriving DecidableEq

/-- The on-disk device file, same three states as `TokFile`. -/
inductive DevFile where
  | absent : DevFile
  | stored : DeviceCode → DevFile
  | corrupt : DevFile
deriving DecidableEq

/-- The persistent state: `CONFIG.TOKEN_FILE`, `CONFIG.DEVICE_FILE`,
and whether `CONFIG.DATA_DIR` exists. -/
structure Store where
  tokenFile : TokFile
  deviceFile : DevFile
  dirReady : Bool
deriving DecidableEq

/-- The world an `AuthManager` call sees and updates: the in-memory
fields `this.tokens` and `this.deviceCode`, the persistent store, the
clock (`Date.now()`), and a count of background poll tasks launched by
`this.pollForTokenInBackground()` (which is called without `await`:
incrementing the count models the fire-and-forget spawn). -/
structure World where
  tokens : Option TokenSet
  deviceCode : Option DeviceCode
  store : Store
  now : Int
  bgPolls : Nat
deriving DecidableEq

/-- `CONFIG.TOKEN_EXPIRY_BUFFER` (5 minutes, in milliseconds). -/
def TOKEN_EXPIRY_BUFFER : Int := 5 * 60 * 1000

/-- `CONFIG.DEVICE_CODE_POLL_INTERVAL` (5 seconds, in milliseconds). -/
def DEVICE_CODE_POLL_INTERVAL : Int := 5000

/-- `CONFIG.MAX_POLL_ATTEMPTS`. -/
def MAX_POLL_ATTEMPTS : Nat := 180

/-! ## AuthManager: network responses

The authorization server is a collaborator; each manager operation is
parametrized by the response the server gives to the request it makes. -/

/-- Body of a successful token-endpoint response. -/
structure TokenResponse where
  access_token : String
  refresh_token : Option String
  expires_in : Int
  token_type : String
deriving DecidableEq

/-- Body of a successful device-code-endpoint response. -/
structure DeviceCodeResponse where
  device_code : String
  user_code : String
  verification_uri : String
  expires_in : Int
  interval : Int
deriving DecidableEq

/-- Outcome of one poll attempt against the token endpoint, as
`pollForToken` discriminates it: success, the three recognized error
codes, or anything else (`error.response?.data?.error` unrecognized or
missing — unknown server error codes, network and transport failures). -/
inductive PollOutcome where
  | success : TokenResponse → PollOutcome
  | pending : PollOutcome
  | declined : PollOutcome
  | expired : PollOutcome
  | otherFailure : String → PollOutcome
deriving DecidableEq

/-- Outcome of the refresh request in `refreshAccessToken`: the catch
block treats every failure alike, so two cases suffice. -/
inductive RefreshResp where
  | success : TokenResponse → RefreshResp
  | failure : String → RefreshResp
deriving DecidableEq

/-- Outcome of the device-code request in `authenticate`. -/
inductive DeviceResp where
  | success : DeviceCodeResponse → DeviceResp
  | failure : String → DeviceResp
deriving DecidableEq

/-- The responses the collaborating server would give to the requests a
synchronous manager call can make. -/
structure NetEnv where
  deviceResp : DeviceResp
  refreshResp : RefreshResp
deriving DecidableEq

/-- One synchronous network request made by a manager call. -/
inductive NetCall where
  | deviceCodeReq : NetCall
  | refreshReq : NetCall
deriving DecidableEq

/-- Errors thrown by `AuthManager` methods (the source throws `Error`
objects whose messages carry this information). -/
inductive AuthErr where
  | authenticationRequired : String → String → Int → AuthErr
  | authenticationFailed : String → AuthErr
  | authorizationDeclined : AuthErr
  | deviceCodeExpired : AuthErr
  | pollingFailed : String → AuthErr
  | authTimeout : AuthErr
  | noRefreshToken : AuthErr
  | reauthRequired : AuthErr
deriving DecidableEq

/-- The message string of each thrown error, as written in the source. -/
def authErrMessage : AuthErr → String
  | AuthErr.authenticationRequired _ _ _ => "authentication_required"
  | AuthErr.authenticationFailed desc => "Authentication failed: " ++ desc
  | AuthErr.authorizationDeclined => "Authorization was declined by the user"
  | AuthErr.deviceCodeExpired => "Device code expired. Please try again."
  | AuthErr.pollingFailed desc => "Token polling failed: " ++ desc
  | AuthErr.authTimeout => "Authentication timeout. Please try again."
  | AuthErr.noRefreshToken => "No refresh token available. Please re-authenticate."
  | AuthErr.reauthRequired => "Token refresh failed. Please re-authenticate."

/-- Result of a synchronous manager call: the updated world, the
returned value or thrown error, and the synchronous network requests
made along the way. -/
structure Res (α : Type) where
  world : World
  outcome : Except AuthErr α
  calls : List NetCall

/-! ## AuthManager: operations -/

/-- `AuthManager.saveTokens`: writes the encrypted token file only when
`this.tokens` is non-null; otherwise it does nothing at all. -/
def saveTokens (w : World) : World :=
  match w.tokens with
  | some t => { w with store := { w.store with tokenFile := TokFile.stored t } }
  | none => w

/-- `AuthManager.saveDeviceCode`: writes the encrypted device file only
when `this.deviceCode` is non-null; otherwise it does nothing at all. -/
def saveDeviceCode (w : World) : World :=
  match w.deviceCode with
  | some d => { w with store := { w.store with deviceFile := DevFile.stored d } }
  | none => w

/-- `AuthManager.loadTokens`: loads the token file; its catch block
swallows every load failure and leaves `this.tokens` null. -/
def loadTokens (w : World) : World :=
  match w.store.tokenFile with
  | TokFile.absent => { w with tokens := none }
  | TokFile.stored t => { w with tokens := some t }
  | TokFile.corrupt => { w with tokens := none }

/-- `AuthManager.loadDeviceCode`: same pattern as `loadTokens` for the
device file. -/
def loadDeviceCode (w : World) : World :=
  match w.store.deviceFile with
  | DevFile.absent => { w with deviceCode := none }
  | DevFile.stored d => { w with deviceCode := some d }
  | DevFile.corrupt => { w with deviceCode := none }

/-- `AuthManager.initialize`: creates the data directory, then runs
`loadTokens` and `loadDeviceCode`.  Both loaders swallow their own
failures, and the directory creation is modelled as infallible, so the
call always succeeds; its own try/catch would only rethrow an error
that reached it. -/
def initManager (w : World) : Except String World :=
  Except.ok
    (loadDeviceCode (loadTokens { w with store := { w.store with dirReady := true } }))

/-- The `this.deviceCode` object `authenticate` builds from the
device-code response. -/
def deviceCodeOfResponse (d : DeviceCodeResponse) : DeviceCode :=
  { device_code := d.device_code
    user_code := d.user_code
    verification_uri := d.verification_uri
    expires_in := d.expires_in
    interval := d.interval }

/-- `AuthManager.authenticate`: requests a device code; on success it
stores and persists the `DeviceAuthorization`, launches the background
poll without awaiting it, and throws the `authentication_required`
instruction error (rethrown unchanged by its catch block); on request
failure its catch block wraps the error.  It never returns normally. -/
def authenticate (env : NetEnv) (w : World) : Res String :=
  match env.deviceResp with
  | DeviceResp.failure desc =>
    { world := w
      outcome := Except.error (AuthErr.authenticationFailed desc)
      calls := [NetCall.deviceCodeReq] }
  | DeviceResp.success d =>
    let dc := deviceCodeOfResponse d
    let w2 := saveDeviceCode { w with deviceCode := some dc }
    let w3 := { w2 with bgPolls := w2.bgPolls + 1 }
    { world := w3
      outcome := Except.error
        (AuthErr.authenticationRequired d.verification_uri d.user_code d.expires_in)
      calls := [NetCall.deviceCodeReq] }

/-- The fresh `TokenSet` built on a successful poll:
`expires_at = Date.now() + expires_in * 1000`. -/
def mkTokensFromResponse (d : TokenResponse) (now : Int) : TokenSet :=
  { access_token := d.access_token
    refresh_token := d.refresh_token
    expires_in := d.expires_in
    expires_at := now + d.expires_in * 1000
    token_type := d.token_type }

/-- The fresh `TokenSet` built on a successful refresh: as on poll
success, except that when the response carries no rotated refresh token
the old one is kept (`response.data.refresh_token || this.tokens.refresh_token`). -/
def mkRefreshedTokens (d : TokenResponse) (oldRefresh : String) (now : Int) : TokenSet :=
  { access_token := d.access_token
    refresh_token := some (d.refresh_token.getD oldRefresh)
    expires_in := d.expires_in
    expires_at := now + d.expires_in * 1000
    token_type := d.token_type }

/-- The `while (attempts < CONFIG.MAX_POLL_ATTEMPTS)` loop of
`AuthManager.pollForToken`, recursing on the remaining attempt budget
(`remaining = MAX_POLL_ATTEMPTS - attempts`; `attempts` indexes the
per-attempt server outcome).  Only `authorization_pending` sleeps one
interval and retries; success stores and persists a fresh `TokenSet`;
every other outcome throws immediately. -/
def pollLoop (script : Nat → PollOutcome) :
    Nat → Nat → World → World × Except AuthErr Unit
  | 0, _, w => (w, Except.error AuthErr.authTimeout)
  | remaining + 1, attempts, w =>
    match script attempts with
    | PollOutcome.success d =>
      let w2 := saveTokens { w with tokens := some (mkTokensFromResponse d w.now) }
      (w2, Except.ok ())
    | PollOutcome.pending =>
      pollLoop script remaining (attempts + 1)
        { w with now := w.now + DEVICE_CODE_POLL_INTERVAL }
    | PollOutcome.declined => (w, Except.error AuthErr.authorizationDeclined)
    | PollOutcome.expired => (w, Except.error AuthErr.deviceCodeExpired)
    | PollOutcome.otherFailure desc =>
      (w, Except.error (AuthErr.pollingFailed desc))

/-- `AuthManager.pollForToken`: run the loop from attempt 0 with the
full budget. -/
def pollForToken (script : Nat → PollOutcome) (w : World) :
    World × Except AuthErr Unit :=
  pollLoop script MAX_POLL_ATTEMPTS 0 w

/-- `AuthManager.pollForTokenInBackground`: awaits `pollForToken` and
catches any error, writing its message to stderr; nothing is rethrown,
so the result carries the final world and the logged message, if any. -/
def pollForTokenInBackground (script : Nat → PollOutcome) (w : World) :
    World × Option String :=
  match pollForToken script w with
  | (w2, Except.ok _) => (w2, none)
  | (w2, Except.error e) => (w2, some (authErrMessage e))

/-- `AuthManager.refreshAccessToken`: with no held refresh token it
throws at once; otherwise it posts the refresh grant — on success it
replaces `this.tokens` wholesale and persists it, on any failure it
nulls `this.tokens`, calls `saveTokens` (a no-op on null) and throws
the re-authentication error. -/
def refreshAccessToken (env : NetEnv) (w : World) : Res Unit :=
  match w.tokens with
  | none =>
    { world := w, outcome := Except.error AuthErr.noRefreshToken, calls := [] }
  | some t =>
    match t.refresh_token with
    | none =>
      { world := w, outcome := Except.error AuthErr.noRefreshToken, calls := [] }
    | some rt =>
      match env.refreshResp with
      | RefreshResp.success d =>
        let w2 := saveTokens { w with tokens := some (mkRefreshedTokens d rt w.now) }
        { world := w2, outcome := Except.ok (), calls := [NetCall.refreshReq] }
      | RefreshResp.failure _ =>
        let w2 := saveTokens { w with tokens := none }
        { world := w2
          outcome := Except.error AuthErr.reauthRequired
          calls := [NetCall.refreshReq] }

/-- `AuthManager.getValidAccessToken`: with no held `TokenSet` it calls
`authenticate`, which always throws; with a held `TokenSet` inside the
expiry buffer it refreshes synchronously and returns the token then
held; otherwise it returns the cached token with no network call.  (The
inner `none` branch after a successful refresh is unreachable: refresh
success always stores a `TokenSet`.) -/
def getValidAccessToken (env : NetEnv) (w : World) : Res String :=
  match w.tokens with
  | none => authenticate env w
  | some t =>
    if w.now ≥ t.expires_at - TOKEN_EXPIRY_BUFFER then
      let r := refreshAccessToken env w
      match r.outcome with
      | Except.error e =>
        { world := r.world, outcome := Except.error e, calls := r.calls }
      | Except.ok _ =>
        match r.world.tokens with
        | some t2 =>
          { world := r.world, outcome := Except.ok t2.access_token, calls := r.calls }
        | none =>
          { world := r.world
            outcome := Except.error AuthErr.reauthRequired
            calls := r.calls }
    else
      { world := w, outcome := Except.ok t.access_token, calls := [] }

/-! ## Concrete fixtures used by witnesses and counterexamples -/

/-- A token-endpoint success body. -/
def tRespNew : TokenResponse :=
  { access_token := "newAccess", refresh_token := some "newRefresh",
    expires_in := 3600, token_type := "Bearer" }

/-- A device-code-endpoint success body. -/
def dRespDemo : DeviceCodeResponse :=
  { device_code := "dev123", user_code := "ABCD-EFGH",
    verification_uri := "https://login.example/device",
    expires_in := 900, interval := 5 }

/-- A held `TokenSet` that is already past its expiry. -/
def tokStale : TokenSet :=
  { access_token := "staleAccess", refresh_token := some "oldRefresh",
    expires_in := 3600, expires_at := 1000000, token_type := "Bearer" }

/-- A store holding the stale token set on disk. -/
def storeStale : Store :=
  { tokenFile := TokFile.stored tokStale, deviceFile := DevFile.absent, dirReady := true }

/-- A world holding the stale token set, well past its expiry. -/
def wStale : World :=
  { tokens := some tokStale, deviceCode := none, store := storeStale,
    now := 2000000, bgPolls := 0 }

/-- A server that answers both endpoints successfully. -/
def envOk : NetEnv :=
  { deviceResp := DeviceResp.success dRespDemo, refreshResp := RefreshResp.success tRespNew }

/-- A server that rejects the refresh grant (`invalid_grant`). -/
def envRefreshFail : NetEnv :=
  { deviceResp := DeviceResp.success dRespDemo,
    refreshResp := RefreshResp.failure "invalid_grant" }

/-- An empty first-run store. -/
def storeEmpty : Store :=
  { tokenFile := TokFile.absent, deviceFile := DevFile.absent, dirReady := false }

/-- A first-run world: nothing held, nothing stored. -/
def wEmpty : World :=
  { tokens := none, deviceCode := none, store := storeEmpty, now := 0, bgPolls := 0 }

/-- The device authorization built from `dRespDemo`. -/
def dcDemo : DeviceCode := deviceCodeOfResponse dRespDemo

/-- A store holding a persisted device authorization. -/
def storePoll : Store :=
  { tokenFile := TokFile.absent, deviceFile := DevFile.stored dcDemo, dirReady := true }

/-- A world mid device flow: device code held and persisted, no tokens. -/
def wPoll : World :=
  { tokens := none, deviceCode := some dcDemo, store := storePoll,
    now := 500000, bgPolls := 1 }

/-- Poll outcomes: pending twice, then success. -/
def scriptPoll : Nat → PollOutcome := fun i =>
  if i < 2 then PollOutcome.pending else PollOutcome.success tRespNew

/-- Poll outcomes: declined at once. -/
def scriptDeclined : Nat → PollOutcome := fun _ => PollOutcome.declined

/-- Poll outcomes: a transport error on the first attempt, then the
server would grant the token on every later attempt. -/
def scriptNetErr : Nat → PollOutcome := fun i =>
  if i = 0 then PollOutcome.otherFailure "socket hang up"
  else PollOutcome.success tRespNew

/-- A store whose two files both exist but fail to load. -/
def storeCorrupt : Store :=
  { tokenFile := TokFile.corrupt, deviceFile := DevFile.corrupt, dirReady := true }

/-- A world about to run `initialize` over corrupted storage. -/
def wCorrupt : World :=
  { tokens := some tokStale, deviceCode := some dcDemo, store := storeCorrupt,
    now := 0, bgPolls := 0 }

/-- The world `initialize` produces from `wCorrupt`: it continues with
both in-memory values absent. -/
def wCorruptLoaded : World :=
  { tokens := none, deviceCode := none, store := storeCorrupt, now := 0, bgPolls := 0 }

/-- A demo encryption key. -/
def keyDemo : List Nat := [2]

/-- A blob whose authentication tag does not verify under `keyDemo`. -/
def badBlob : EncBlob := { encrypted := [5], iv := [1], tag := 0 }

/-! ## Claim theorems -/

/-- C9: for every payload, encrypting (serialize, encrypt under the key
with a fresh nonce) and then decrypting the resulting blob under the
same key yields the payload unchanged. -/
theorem c9_decrypt_encrypt_roundtrip (key iv : List Nat) (P : Payload) :
    decrypt key (encrypt key iv P) = Except.ok P := by
  simp [encrypt, decrypt, streamDec_streamEnc, deserializePayload_serializePayload]

/-- C7: loading a nonexistent file yields the non-error absent result,
while an existing file whose content is malformed or fails decryption
yields the hard load error, which is distinct from the absent result. -/
theorem c7_absent_vs_corrupt :
    (∀ key : List Nat, loadEncryptedData key none = Except.ok none)
    ∧ (∀ key : List Nat,
        loadEncryptedData key (some FileContent.malformed)
          = Except.error "Failed to load encrypted data")
    ∧ (∀ (key : List Nat) (b : EncBlob) (msg : String),
        decrypt key b = Except.error msg →
        loadEncryptedData key (some (FileContent.blobJson b))
          = Except.error "Failed to load encrypted data")
    ∧ (∀ (key : List Nat) (msg : String),
        loadEncryptedData key none ≠ Except.error msg) := by
  refine ⟨fun key => rfl, fun key => rfl, ?_, fun key msg h => Except.noConfusion h⟩
  intro key b msg h
  simp [loadEncryptedData, h]

/-- C7 witness: a concrete tag-mismatch blob is reported corrupt, while
a missing file is reported absent. -/
theorem c7_witness :
    loadEncryptedData keyDemo (some (FileContent.blobJson badBlob))
      = Except.error "Failed to load encrypted data"
    ∧ loadEncryptedData keyDemo none = Except.ok none :=
  ⟨c7_absent_vs_corrupt.2.2.1 keyDemo badBlob "Decryption failed" rfl,
   c7_absent_vs_corrupt.1 keyDemo⟩

/-- C10: `saveTokens` and `saveDeviceCode` write their file only when
the corresponding in-memory value is non-null; on a null value the call
changes nothing at all, leaving the previously persisted file content
untouched. -/
theorem c10_save_guards (w : World) :
    (w.tokens = none → saveTokens w = w)
    ∧ (∀ t, w.tokens = some t →
        saveTokens w = { w with store := { w.store with tokenFile := TokFile.stored t } })
    ∧ (w.deviceCode = none → saveDeviceCode w = w)
    ∧ (∀ d, w.deviceCode = some d →
        saveDeviceCode w
          = { w with store := { w.store with deviceFile := DevFile.stored d } }) := by
  refine ⟨?_, ?_, ?_, ?_⟩
  · intro h; simp [saveTokens, h]
  · intro t h; simp [saveTokens, h]
  · intro h; simp [saveDeviceCode, h]
  · intro d h; simp [saveDeviceCode, h]

/-- C10 witness: with no tokens held, `saveTokens` leaves the world —
in particular the stored device file — exactly as it was. -/
theorem c10_witness : saveTokens wPoll = wPoll :=
  (c10_save_guards wPoll).1 rfl

/-- C1 (code bug at a concrete input): after a failed refresh the
in-memory `TokenSet` is cleared and the re-authentication error is
thrown, and the next `getValidAccessToken` call re-enters the device
flow — but the cleared state is NOT persisted: `saveTokens` does
nothing on a null value, so the stale `TokenSet` blob remains in the
on-disk token file, although the call sites and the design intend the
cleared state to be persisted. -/
theorem c1_refresh_failure_leaves_disk :
    (refreshAccessToken envRefreshFail wStale).outcome
      = Except.error AuthErr.reauthRequired
    ∧ (refreshAccessToken envRefreshFail wStale).world.tokens = none
    ∧ (refreshAccessToken envRefreshFail wStale).world.store.tokenFile
        = TokFile.stored tokStale
    ∧ (getValidAccessToken envRefreshFail
          (refreshAccessToken envRefreshFail wStale).world).outcome
        = Except.error
            (AuthErr.authenticationRequired "https://login.example/device" "ABCD-EFGH" 900) :=
  ⟨rfl, rfl, rfl, rfl⟩

/-- C2: with no `TokenSet` held, `getValidAccessToken` runs the device
flow and fails at once with the `authentication_required` signal
carrying verification URI, user code and expiry; the flow persists the
`DeviceAuthorization` and records exactly one fire-and-forget
background poll task (the call does not wait on it), and the background
wrapper turns every poll failure into a log line instead of surfacing
it. -/
theorem c2_no_tokens_starts_device_flow (env : NetEnv) (w : World)
    (d : DeviceCodeResponse) (hnone : w.tokens = none)
    (hdev : env.deviceResp = DeviceResp.success d) :
    (getValidAccessToken env w).outcome
      = Except.error
          (AuthErr.authenticationRequired d.verification_uri d.user_code d.expires_in)
    ∧ (getValidAccessToken env w).world.deviceCode = some (deviceCodeOfResponse d)
    ∧ (getValidAccessToken env w).world.store.deviceFile
        = DevFile.stored (deviceCodeOfResponse d)
    ∧ (getValidAccessToken env w).world.bgPolls = w.bgPolls + 1
    ∧ (getValidAccessToken env w).calls = [NetCall.deviceCodeReq]
    ∧ (∀ (script : Nat → PollOutcome) (w2 : World) (e : AuthErr),
        (pollForToken script w2).2 = Except.error e →
        pollForTokenInBackground script w2
          = ((pollForToken script w2).1, some (authErrMessage e))) := by
  refine ⟨?_, ?_, ?_, ?_, ?_, ?_⟩
  · simp [getValidAccessToken, hnone, authenticate, hdev]
  · simp [getValidAccessToken, hnone, authenticate, hdev, saveDeviceCode]
  · simp [getValidAccessToken, hnone, authenticate, hdev, saveDeviceCode]
  · simp [getValidAccessToken, hnone, authenticate, hdev, saveDeviceCode]
  · simp [getValidAccessToken, hnone, authenticate, hdev]
  · intro script w2 e h
    rcases hp : pollForToken script w2 with ⟨w3, r⟩
    rw [hp] at h
    simp only at h
    subst h
    simp [pollForTokenInBackground, hp]

/-- C2 witness: on a first-run world the call fails with the concrete
authorization instructions and one spawned background poll. -/
theorem c2_witness :
    (getValidAccessToken envOk wEmpty).outcome
      = Except.error
          (AuthErr.authenticationRequired "https://login.example/device" "ABCD-EFGH" 900)
    ∧ (getValidAccessToken envOk wEmpty).world.bgPolls = 1 := by
  have h := c2_no_tokens_starts_device_flow envOk wEmpty dRespDemo rfl rfl
  exact ⟨h.1, h.2.2.2.1⟩

/-- C3: with a `TokenSet` held and the clock inside the five-minute
expiry buffer, `getValidAccessToken` performs exactly one synchronous
refresh request and returns the refreshed access token; with the clock
outside the buffer it returns the cached token with no state change and
no network call. -/
theorem c3_buffer_refresh (env : NetEnv) (w : World) (t : TokenSet)
    (hsome : w.tokens = some t) :
    (w.now ≥ t.expires_at - TOKEN_EXPIRY_BUFFER →
      ∀ (rt : String) (d : TokenResponse),
        t.refresh_token = some rt → env.refreshResp = RefreshResp.success d →
        getValidAccessToken env w
          = { world := saveTokens { w with tokens := some (mkRefreshedTokens d rt w.now) }
              outcome := Except.ok d.access_token
              calls := [NetCall.refreshReq] })
    ∧ (w.now < t.expires_at - TOKEN_EXPIRY_BUFFER →
        getValidAccessToken env w
          = { world := w, outcome := Except.ok t.access_token, calls := [] }) := by
  constructor
  · intro h rt d hrt hresp
    simp only [getValidAccessToken, hsome]
    rw [if_pos h]
    simp [refreshAccessToken, hsome, hrt, hresp, saveTokens, mkRefreshedTokens]
  · intro h
    simp only [getValidAccessToken, hsome]
    rw [if_neg (not_le.mpr h)]

/-- C3 witness: with the stale token set the call refreshes once and
returns the new access token, never the stale one. -/
theorem c3_witness :
    (getValidAccessToken envOk wStale).outcome = Except.ok "newAccess"
    ∧ (getValidAccessToken envOk wStale).calls = [NetCall.refreshReq] := by
  have h := (c3_buffer_refresh envOk wStale tokStale rfl).1 (by decide)
    "oldRefresh" tRespNew rfl rfl
  rw [h]
  exact ⟨rfl, rfl⟩

/-- C4 counterexample: a poll sequence pending, pending, success does
obtain and persist a fresh `TokenSet` with the documented expiry — but
the `DeviceAuthorization` is NOT discarded on termination: it stays in
the manager's in-memory state and in the encrypted device file, so the
claim that every termination removes it is false. -/
theorem c4_counterexample :
    (pollForToken scriptPoll wPoll).2 = Except.ok ()
    ∧ (pollForToken scriptPoll wPoll).1.tokens
        = some (mkTokensFromResponse tRespNew 510000)
    ∧ (pollForToken scriptPoll wPoll).1.store.tokenFile
        = TokFile.stored (mkTokensFromResponse tRespNew 510000)
    ∧ (pollForToken scriptPoll wPoll).1.deviceCode = some dcDemo
    ∧ (pollForToken scriptPoll wPoll).1.store.deviceFile = DevFile.stored dcDemo :=
  ⟨rfl, rfl, rfl, rfl, rfl⟩

/-- C4 as amended: whenever `pollForToken` terminates, the
`DeviceAuthorization` is retained — the in-memory `deviceCode` and the
encrypted device file are exactly as before — and on every non-success
termination the `TokenSet` and the token file are also unchanged (so no
`TokenSet` is held afterwards if none was held before). -/
theorem c4_amended_device_code_retained (script : Nat → PollOutcome) :
    ∀ (remaining attempts : Nat) (w : World),
      (pollLoop script remaining attempts w).1.deviceCode = w.deviceCode
      ∧ (pollLoop script remaining attempts w).1.store.deviceFile = w.store.deviceFile
      ∧ (∀ e, (pollLoop script remaining attempts w).2 = Except.error e →
          (pollLoop script remaining attempts w).1.tokens = w.tokens
          ∧ (pollLoop script remaining attempts w).1.store.tokenFile
              = w.store.tokenFile) := by
  intro remaining
  induction remaining with
  | zero => intro attempts w; simp [pollLoop]
  | succ r ih =>
    intro attempts w
    cases hs : script attempts with
    | success d => simp [pollLoop, hs, saveTokens]
    | pending =>
      simp only [pollLoop, hs]
      exact ih (attempts + 1) _
    | declined => simp [pollLoop, hs]
    | expired => simp [pollLoop, hs]
    | otherFailure desc => simp [pollLoop, hs]

/-- C4 amended witness: a declined flow leaves the held tokens (none)
unchanged. -/
theorem c4_amended_witness :
    (pollLoop scriptDeclined 1 0 wPoll).1.tokens = wPoll.tokens
    ∧ (pollLoop scriptDeclined 1 0 wPoll).1.deviceCode = wPoll.deviceCode := by
  have h := c4_amended_device_code_retained scriptDeclined 1 0 wPoll
  exact ⟨(h.2.2 AuthErr.authorizationDeclined rfl).1, h.1⟩

/-- C5 counterexample: a transport error on the very first poll attempt
is thrown to the caller at once — the loop does not swallow it into its
retry logic, even though the server would have granted the token on the
next attempt. -/
theorem c5_counterexample :
    pollForToken scriptNetErr wPoll
      = (wPoll, Except.error (AuthErr.pollingFailed "socket hang up")) :=
  rfl

/-- C5 as amended: inside the poll loop only `authorization_pending` is
retried (sleeping one interval, consuming one attempt of the bounded
budget); every other failure — transient network or transport errors
and unrecognized error codes alike, as well as `authorization_declined`
and `expired_token` — is returned to the immediate caller on its first
occurrence, never logged-and-suppressed by the loop. -/
theorem c5_amended_retry_policy (script : Nat → PollOutcome)
    (remaining attempts : Nat) (w : World) :
    (∀ desc, script attempts = PollOutcome.otherFailure desc →
      pollLoop script (remaining + 1) attempts w
        = (w, Except.error (AuthErr.pollingFailed desc)))
    ∧ (script attempts = PollOutcome.declined →
      pollLoop script (remaining + 1) attempts w
        = (w, Except.error AuthErr.authorizationDeclined))
    ∧ (script attempts = PollOutcome.expired →
      pollLoop script (remaining + 1) attempts w
        = (w, Except.error AuthErr.deviceCodeExpired))
    ∧ (script attempts = PollOutcome.pending →
      pollLoop script (remaining + 1) attempts w
        = pollLoop script remaining (attempts + 1)
            { w with now := w.now + DEVICE_CODE_POLL_INTERVAL }) := by
  refine ⟨?_, ?_, ?_, ?_⟩
  · intro desc h; simp only [pollLoop, h]
  · intro h; simp only [pollLoop, h]
  · intro h; simp only [pollLoop, h]
  · intro h; simp only [pollLoop, h]

/-- C5 amended witness: the concrete transport error is thrown with the
full attempt budget still available. -/
theorem c5_amended_witness :
    pollLoop scriptNetErr 180 0 wPoll
      = (wPoll, Except.error (AuthErr.pollingFailed "socket hang up")) :=
  (c5_amended_retry_policy scriptNetErr 179 0 wPoll).1 "socket hang up" rfl

/-- C6 counterexample: with both stored blobs failing to load,
`initialize` does not propagate the load error as fatal — it succeeds,
continuing with both in-memory values treated as absent. -/
theorem c6_counterexample :
    initManager wCorrupt = Except.ok wCorruptLoaded
    ∧ wCorruptLoaded.tokens = none
    ∧ wCorruptLoaded.deviceCode = none :=
  ⟨rfl, rfl, rfl⟩

/-- C6 as amended: `initialize` ensures the storage location exists and
loads any persisted `TokenSet` and `DeviceAuthorization`, treating an
absent file as success; a stored blob that fails to load is tolerated —
the corresponding in-memory value is set to absent and the call still
succeeds; it never starts a device flow itself (no background poll is
spawned) and never touches the stored files. -/
theorem c6_amended_tolerant_init (w : World) :
    ∃ w2, initManager w = Except.ok w2
      ∧ w2.tokens = (match w.store.tokenFile with
          | TokFile.stored t => some t
          | _ => none)
      ∧ w2.deviceCode = (match w.store.deviceFile with
          | DevFile.stored d => some d
          | _ => none)
      ∧ w2.store.tokenFile = w.store.tokenFile
      ∧ w2.store.deviceFile = w.store.deviceFile
      ∧ w2.store.dirReady = true
      ∧ w2.bgPolls = w.bgPolls
      ∧ w2.now = w.now := by
  refine ⟨_, rfl, ?_, ?_, ?_, ?_, ?_, ?_, ?_⟩ <;>
    cases ht : w.store.tokenFile <;> cases hd : w.store.deviceFile <;>
      simp [loadTokens, loadDeviceCode, ht, hd]

/-- C8: every `TokenSet` the manager constructs — on the device-flow
poll success path and on the refresh success path alike — is built
wholesale from the server response and the current clock, with
`expires_at` equal to the issuance time plus the returned `expires_in`
times 1000; the refresh path keeps the old refresh token only when the
response carries none. -/
theorem c8_expiry_invariant :
    (∀ (script : Nat → PollOutcome) (remaining attempts : Nat) (w : World)
        (d : TokenResponse),
      script attempts = PollOutcome.success d →
      pollLoop script (remaining + 1) attempts w
        = (saveTokens { w with tokens := some (mkTokensFromResponse d w.now) },
           Except.ok ())
      ∧ (mkTokensFromResponse d w.now).expires_at = w.now + d.expires_in * 1000)
    ∧ (∀ (env : NetEnv) (w : World) (t : TokenSet) (rt : String) (d : TokenResponse),
      w.tokens = some t → t.refresh_token = some rt →
      env.refreshResp = RefreshResp.success d →
      refreshAccessToken env w
        = { world := saveTokens { w with tokens := some (mkRefreshedTokens d rt w.now) }
            outcome := Except.ok ()
            calls := [NetCall.refreshReq] }
      ∧ (mkRefreshedTokens d rt w.now).expires_at = w.now + d.expires_in * 1000) := by
  constructor
  · intro script remaining attempts w d h
    exact ⟨by simp only [pollLoop, h], rfl⟩
  · intro env w t rt d h1 h2 h3
    refine ⟨?_, rfl⟩
    simp [refreshAccessToken, h1, h2, h3]

/-- C8 witness: the refreshed token set built from the stale world has
its expiry recomputed from the refresh-time clock. -/
theorem c8_witness :
    refreshAccessToken envOk wStale
      = { world := saveTokens
            { wStale with tokens := some (mkRefreshedTokens tRespNew "oldRefresh" 2000000) }
          outcome := Except.ok ()
          calls := [NetCall.refreshReq] }
    ∧ (mkRefreshedTokens tRespNew "oldRefresh" 2000000).expires_at = 2000000 + 3600 * 1000 :=
  c8_expiry_invariant.2 envOk wStale tokStale "oldRefresh" tRespNew rfl rfl rfl

end GraphMcp
